import Mathlib

/-!
Verification development for partnerutils/etl_utils.py.

The module under verification is a thin wrapper around an external
content-store SDK (ArcGIS).  We embed it shallowly:

* The external SDK is modelled as a set of primitive state transitions on
  an explicit content-store state `St` (item ids in the store, open temp
  files, layer index definitions, and a trace of every SDK call made),
  driven by an environment `Env` that fixes the outcome (success or
  failure) of each kind of SDK call and the result of content searches.
* Python exceptions become `Except Err`; `try/finally` becomes explicit
  sequencing where the cleanup step runs on every path and a failure of
  the cleanup step replaces the original failure, exactly as in Python.
* The repository functions `add_geojson`, `append_to_layer`,
  `create_layer`, `create_scratch_layer` and `get_existing_item` are
  translated line by line against these primitives.
* The external `datetime` library used by `date_to_ags` and
  `timestamp_to_ags` is modelled with a Gregorian civil-calendar
  conversion from epoch seconds; the host local timezone is modelled as a
  fixed UTC offset (an integer number of seconds).
-/

namespace EtlUtils

/-- Serialized GeoJSON payload; the code treats it as opaque. -/
abbrev Geojson := String

/-- Python keyword-argument dict used for item options and item
properties: an association list from string keys to string values. -/
abbrev Dict := List (String × String)

/-- Reference to a sub-layer of an item: the pair of the item id and the
sub-layer position, modelling `item.layers[i]`. -/
abbrev LayerRef := Nat × Nat

/-- Index definition dict as passed to `add_to_definition`. -/
structure IndexDef where
  name : String
  fields : String
  isUnique : Bool
  description : String
  deriving DecidableEq, Repr

/-- One SDK call, with the arguments the wrapper passed to it.  The state
keeps the list of calls made, so that theorems can speak about which SDK
operations a wrapper function invoked and with which arguments. -/
inductive Call where
  | add (props : Dict) (dataFile : Nat)
  | delete (itemId : Nat)
  | append (layer : LayerRef) (itemId : Nat) (uploadFormat : String)
      (upsert : Bool) (upsertMatchingField : Option String)
  | publish (itemId : Nat)
  | cloneItems (templates : List Nat) (copyData : Bool)
  | addToDefinition (layer : LayerRef) (indexes : List IndexDef)
  | search (query : String)
  deriving DecidableEq, Repr

/-- Failures raised by the SDK primitives. -/
inductive Err where
  | addFailed
  | appendFailed
  | deleteFailed
  | publishFailed
  | cloneFailed
  | indexFailed
  | indexOutOfRange
  deriving DecidableEq, Repr

/-- Outcome environment: which SDK calls succeed, and what a content
search returns. -/
structure Env where
  addOk : Bool
  appendOk : Bool
  deleteOk : Bool
  publishOk : Bool
  cloneOk : Bool
  indexOk : Bool
  searchResult : List Nat
  deriving DecidableEq, Repr

/-- Content-store and local state threaded through the embedding. -/
structure St where
  nextItem : Nat
  nextFile : Nat
  store : List Nat
  tempFiles : List (Nat × String)
  indexes : List (LayerRef × IndexDef)
  calls : List Call
  deriving DecidableEq, Repr

/-- Python truthiness of an optional string: `None` and the empty string
are falsy, every other string is truthy. -/
def pyTruthy : Option String → Bool
  | none => false
  | some s => s != ""

/-- Model of `dict.pop(key, default)`: the value at the key (or the
default when absent) together with the dict with the key removed. -/
def dpop (d : Dict) (k : String) (dflt : String) : String × Dict :=
  match d.lookup k with
  | some v => (v, d.filter (fun p => p.1 != k))
  | none => (dflt, d)

/-- Overriding insertion, modelling a later entry of a Python dict
literal taking precedence over spread-in entries for the same key. -/
def dinsert (d : Dict) (k v : String) : Dict :=
  d.filter (fun p => p.1 != k) ++ [(k, v)]

/-- Model of entering `tempfile.NamedTemporaryFile` and writing the
serialized payload: allocates a fresh file and records its content. -/
def tempfileCreate (content : String) (st : St) : Nat × St :=
  (st.nextFile,
    { st with
        nextFile := st.nextFile + 1
        tempFiles := st.tempFiles ++ [(st.nextFile, content)] })

/-- Model of the temp-file context manager exit: the file is removed,
on the success path and on every failure path. -/
def tempfileClose (f : Nat) (st : St) : St :=
  { st with tempFiles := st.tempFiles.filter (fun p => p.1 != f) }

/-- SDK primitive `gis.content.add(props, data)`: records the call and,
on success, puts a fresh item id into the content store. -/
def contentAdd (env : Env) (props : Dict) (dataFile : Nat) (st : St) :
    Except Err Nat × St :=
  let st1 := { st with calls := st.calls ++ [Call.add props dataFile] }
  if env.addOk then
    (Except.ok st1.nextItem,
      { st1 with nextItem := st1.nextItem + 1, store := st1.nextItem :: st1.store })
  else (Except.error Err.addFailed, st1)

/-- SDK primitive `item.delete()`: records the call and, on success,
removes the item from the content store. -/
def itemDelete (env : Env) (itemId : Nat) (st : St) : Except Err Unit × St :=
  let st1 := { st with calls := st.calls ++ [Call.delete itemId] }
  if env.deleteOk then
    (Except.ok (), { st1 with store := st1.store.filter (fun i => i != itemId) })
  else (Except.error Err.deleteFailed, st1)

/-- SDK primitive `layer.append(...)`: records the call with every
argument the wrapper passed. -/
def layerAppend (env : Env) (layer : LayerRef) (itemId : Nat)
    (uploadFormat : String) (upsert : Bool) (matchField : Option String)
    (st : St) : Except Err Bool × St :=
  let st1 :=
    { st with calls := st.calls ++ [Call.append layer itemId uploadFormat upsert matchField] }
  if env.appendOk then (Except.ok true, st1)
  else (Except.error Err.appendFailed, st1)

/-- SDK primitive `item.publish()`: records the call and, on success,
creates the published layer item under a fresh id. -/
def itemPublish (env : Env) (itemId : Nat) (st : St) : Except Err Nat × St :=
  let st1 := { st with calls := st.calls ++ [Call.publish itemId] }
  if env.publishOk then
    (Except.ok st1.nextItem,
      { st1 with nextItem := st1.nextItem + 1, store := st1.nextItem :: st1.store })
  else (Except.error Err.publishFailed, st1)

/-- SDK primitive `gis.content.clone_items(items, copy_data)`: records
the call and, on success, returns one cloned item under a fresh id. -/
def cloneItemsSdk (env : Env) (templates : List Nat) (copyData : Bool)
    (st : St) : Except Err (List Nat) × St :=
  let st1 := { st with calls := st.calls ++ [Call.cloneItems templates copyData] }
  if env.cloneOk then
    (Except.ok [st1.nextItem],
      { st1 with nextItem := st1.nextItem + 1, store := st1.nextItem :: st1.store })
  else (Except.error Err.cloneFailed, st1)

/-- SDK primitive `lyr.manager.add_to_definition(add_dict)`: records the
call and, on success, attaches the index definitions to the layer. -/
def addToDefinitionSdk (env : Env) (layer : LayerRef)
    (idxs : List IndexDef) (st : St) : Except Err Unit × St :=
  let st1 := { st with calls := st.calls ++ [Call.addToDefinition layer idxs] }
  if env.indexOk then
    (Except.ok (), { st1 with indexes := st1.indexes ++ idxs.map (fun i => (layer, i)) })
  else (Except.error Err.indexFailed, st1)

/-- SDK primitive `gis.content.search(query)`: records the call and
returns the environment's search result. -/
def contentSearch (env : Env) (query : String) (st : St) : List Nat × St :=
  (env.searchResult, { st with calls := st.calls ++ [Call.search query] })

def DEFAULT_TITLE : String := "GeoJSON Utils POC"

def DEFAULT_TAG : String := "geojson-utils-poc"

/-- Translation of `add_geojson(gis, geojson, **item_options)`: pop the
title and tags defaults, serialize the payload to a temp file, add the
item with type fixed to GeoJson, and close the temp file on every exit
path of the with-block. -/
def add_geojson (env : Env) (geojson : Geojson) (itemOptions : Dict)
    (st : St) : Except Err Nat × St :=
  let p1 := dpop itemOptions "title" DEFAULT_TITLE
  let p2 := dpop p1.2 "tags" DEFAULT_TAG
  let fc := tempfileCreate geojson st
  let props := dinsert (dinsert (dinsert p2.2 "type" "GeoJson") "title" p1.1) "tags" p2.1
  let r := contentAdd env props fc.1 fc.2
  (r.1, tempfileClose fc.1 r.2)

/-- Translation of `append_to_layer(gis, layer, geojson, uid_field)`:
stage the payload under the title override, append it into the layer
with upsert mode on exactly when `uid_field is not None`, and delete the
staged item in a finally-block; a failure of the delete replaces the
original failure, as in Python. -/
def append_to_layer (env : Env) (layer : LayerRef) (geojson : Geojson)
    (uid_field : Option String) (st : St) : Except Err Bool × St :=
  match add_geojson env geojson [("title", "Dataminr update")] st with
  | (Except.error e, st1) => (Except.error e, st1)
  | (Except.ok itemId, st1) =>
    let ra := layerAppend env layer itemId "geojson" uid_field.isSome uid_field st1
    let rd := itemDelete env itemId ra.2
    match rd.1 with
    | Except.error e2 => (Except.error e2, rd.2)
    | Except.ok _ =>
      match ra.1 with
      | Except.error e1 => (Except.error e1, rd.2)
      | Except.ok v => (Except.ok v, rd.2)

/-- Translation of `create_layer(gis, geojson, template_item)`: clone the
template without data, append the initial payload into the clone's first
sub-layer with no upsert key, and return the cloned item. -/
def create_layer (env : Env) (geojson : Geojson) (templateItem : Nat)
    (st : St) : Except Err Nat × St :=
  match cloneItemsSdk env [templateItem] false st with
  | (Except.error e, st1) => (Except.error e, st1)
  | (Except.ok results, st1) =>
    match results with
    | [] => (Except.error Err.indexOutOfRange, st1)
    | item :: _ =>
      match append_to_layer env (item, 0) geojson none st1 with
      | (Except.error e, st2) => (Except.error e, st2)
      | (Except.ok _, st2) => (Except.ok item, st2)

/-- Translation of `create_scratch_layer(gis, geojson, uid_field,
**item_options)`: stage and publish the payload, delete the staged item
in a finally-block, and, when the uid field is truthy, add the unique
External UID index to the published item's first sub-layer. -/
def create_scratch_layer (env : Env) (geojson : Geojson)
    (uid_field : Option String) (itemOptions : Dict) (st : St) :
    Except Err Nat × St :=
  match add_geojson env geojson itemOptions st with
  | (Except.error e, st1) => (Except.error e, st1)
  | (Except.ok itemId, st1) =>
    let rp := itemPublish env itemId st1
    let rd := itemDelete env itemId rp.2
    match rd.1 with
    | Except.error e2 => (Except.error e2, rd.2)
    | Except.ok _ =>
      match rp.1 with
      | Except.error e1 => (Except.error e1, rd.2)
      | Except.ok lyrItem =>
        if pyTruthy uid_field then
          let newIndex : IndexDef :=
            { name := "External UID", fields := uid_field.getD "",
              isUnique := true, description := "External UID for upsert operations" }
          let ri := addToDefinitionSdk env (lyrItem, 0) [newIndex] rd.2
          match ri.1 with
          | Except.error e => (Except.error e, ri.2)
          | Except.ok _ => (Except.ok lyrItem, ri.2)
        else (Except.ok lyrItem, rd.2)

/-- Translation of `get_existing_item(gis, tags)`: search with the tag
(falling back to the default tag when the argument is falsy) and return
the first result, or none when the search came back empty. -/
def get_existing_item (env : Env) (tags : Option String) (st : St) :
    Option Nat × St :=
  let t := if pyTruthy tags then tags.getD DEFAULT_TAG else DEFAULT_TAG
  let r := contentSearch env ("tags:\"" ++ t ++ "\" AND type:\"Feature Service\"") st
  (r.1.head?, r.2)

/-- The character for a single decimal digit. -/
def digitChar (n : Nat) : Char := Char.ofNat (48 + n)

/-- Two-digit zero-padded decimal rendering, modelling the strftime
fields of the format string whose values are below one hundred. -/
def pad2 (n : Nat) : String :=
  ⟨[digitChar (n / 10 % 10), digitChar (n % 10)]⟩

/-- Four-digit zero-padded decimal rendering, modelling the strftime
year field over the years the datetime library supports. -/
def pad4 (n : Nat) : String :=
  ⟨[digitChar (n / 1000 % 10), digitChar (n / 100 % 10),
    digitChar (n / 10 % 10), digitChar (n % 10)]⟩

/-- Gregorian civil date (year, month, day) of a day count since
1970-01-01, for dates on or after the epoch. -/
def civilFromDays (days : Nat) : Nat × Nat × Nat :=
  let z := days + 719468
  let era := z / 146097
  let doe := z % 146097
  let yoe := (doe - doe / 1460 + doe / 36524 - doe / 146096) / 365
  let y := yoe + era * 400
  let doy := doe - (365 * yoe + yoe / 4 - yoe / 100)
  let mp := (5 * doy + 2) / 153
  let d := doy - (153 * mp + 2) / 5 + 1
  let m := if mp < 10 then mp + 3 else mp - 9
  (if m ≤ 2 then y + 1 else y, m, d)

/-- Rendering of an epoch-seconds instant through the strftime format
string of the source, `%m/%d/%Y %H:%M:%S`. -/
def strftimeAgs (t : Nat) : String :=
  let ymd := civilFromDays (t / 86400)
  let s := t % 86400
  pad2 ymd.2.1 ++ "/" ++ pad2 ymd.2.2 ++ "/" ++ pad4 ymd.1 ++ " " ++
    pad2 (s / 3600) ++ ":" ++ pad2 (s % 3600 / 60) ++ ":" ++ pad2 (s % 60)

/-- Model of a Python datetime at seconds granularity: the wall-clock
fields are encoded as the epoch-seconds value that would display those
fields, and the tz offset is in seconds (`none` for a naive value). -/
structure PyDateTime where
  wall : Int
  utcoffset : Option Int
  deriving DecidableEq, Repr

/-- Model of `d.astimezone(datetime.timezone.utc)`: a naive value is
assumed to be in the host local timezone (a fixed offset here). -/
def astimezoneUtc (localOff : Int) (d : PyDateTime) : PyDateTime :=
  { wall := d.wall - d.utcoffset.getD localOff, utcoffset := some 0 }

/-- Strftime on a datetime renders its wall-clock fields. -/
def strftimeAgsDate (d : PyDateTime) : String := strftimeAgs d.wall.toNat

/-- Translation of `date_to_ags(date)`: convert to UTC, then format. -/
def date_to_ags (localOff : Int) (d : PyDateTime) : String :=
  strftimeAgsDate (astimezoneUtc localOff d)

/-- Model of `datetime.datetime.fromtimestamp(seconds)`: a naive value
holding the local wall-clock reading of the instant. -/
def fromtimestamp (localOff : Int) (seconds : Nat) : PyDateTime :=
  { wall := (seconds : Int) + localOff, utcoffset := none }

/-- Translation of `timestamp_to_ags(timestamp)`: milliseconds to
seconds, interpret as a local-naive datetime, then format via
`date_to_ags`. -/
def timestamp_to_ags (localOff : Int) (timestamp : Nat) : String :=
  date_to_ags localOff (fromtimestamp localOff (timestamp / 1000))

/-- The timezone-aware UTC datetime denoting an epoch-seconds instant. -/
def utcDatetimeOfSeconds (seconds : Nat) : PyDateTime :=
  { wall := (seconds : Int), utcoffset := some 0 }

/-- Decidable check that a string has the exact shape
MM/DD/YYYY HH:MM:SS, with decimal digits in every numeric position. -/
def agsFormatted (s : String) : Bool :=
  match s.data with
  | [m1, m2, a, d1, d2, b, y1, y2, y3, y4, c, h1, h2, e, n1, n2, f, s1, s2] =>
    m1.isDigit && m2.isDigit && (a == '/') && d1.isDigit && d2.isDigit &&
    (b == '/') && y1.isDigit && y2.isDigit && y3.isDigit && y4.isDigit &&
    (c == ' ') && h1.isDigit && h2.isDigit && (e == ':') && n1.isDigit &&
    n2.isDigit && (f == ':') && s1.isDigit && s2.isDigit
  | _ => false

/-- Concrete environment where every SDK call succeeds and searches
come back empty. -/
def env0 : Env :=
  { addOk := true, appendOk := true, deleteOk := true, publishOk := true,
    cloneOk := true, indexOk := true, searchResult := [] }

/-- Concrete environment where the layer append call fails and
everything else succeeds. -/
def envAppendFail : Env := { env0 with appendOk := false }

/-- Concrete environment where the item delete call fails and
everything else succeeds. -/
def envDeleteFail : Env := { env0 with deleteOk := false }

/-- Concrete empty initial state. -/
def st0 : St :=
  { nextItem := 0, nextFile := 0, store := [], tempFiles := [],
    indexes := [], calls := [] }

/-- Removing the entries of one key from a dict leaves the lookup of
every other key unchanged. -/
theorem lookup_filter_ne (k x : String) (h : k ≠ x) (d : Dict) :
    (d.filter (fun p => p.1 != x)).lookup k = d.lookup k := by
  induction d with
  | nil => rfl
  | cons p t ih =>
    by_cases hx : p.1 = x
    · have h1 : (p.1 != x) = false := by simp [hx]
      have h2 : (k == p.1) = false := beq_eq_false_iff_ne.mpr (by rw [hx]; exact h)
      simp [List.filter_cons, h1, List.lookup, h2, ih]
    · have h1 : (p.1 != x) = true := by simp [hx]
      by_cases hk : k = p.1
      · have h2 : (k == p.1) = true := by simp [hk]
        simp [List.filter_cons, h1, List.lookup, h2]
      · have h2 : (k == p.1) = false := beq_eq_false_iff_ne.mpr hk
        simp [List.filter_cons, h1, List.lookup, h2, ih]

/-- Removing the entries of a key from a dict makes that key absent. -/
theorem lookup_filter_self (x : String) (d : Dict) :
    (d.filter (fun p => p.1 != x)).lookup x = none := by
  induction d with
  | nil => rfl
  | cons p t ih =>
    by_cases hx : p.1 = x
    · have h1 : (p.1 != x) = false := by simp [hx]
      simp [List.filter_cons, h1, ih]
    · have h1 : (p.1 != x) = true := by simp [hx]
      have h2 : (x == p.1) = false := beq_eq_false_iff_ne.mpr (Ne.symm hx)
      simp [List.filter_cons, h1, List.lookup, h2, ih]

/-- Lookup over a concatenation tries the left part first. -/
theorem lookup_append (k : String) (l1 l2 : Dict) :
    (l1 ++ l2).lookup k =
      match l1.lookup k with
      | some v => some v
      | none => l2.lookup k := by
  induction l1 with
  | nil => rfl
  | cons p t ih =>
    by_cases hk : k = p.1
    · have h2 : (k == p.1) = true := by simp [hk]
      simp [List.lookup, h2]
    · have h2 : (k == p.1) = false := beq_eq_false_iff_ne.mpr hk
      simp [List.lookup, h2, ih]

/-- Overriding insertion wins the lookup for its own key. -/
theorem lookup_dinsert_self (d : Dict) (k v : String) :
    (dinsert d k v).lookup k = some v := by
  simp [dinsert, lookup_append, lookup_filter_self, List.lookup]

/-- Overriding insertion leaves every other key's lookup unchanged. -/
theorem lookup_dinsert_ne (d : Dict) (k v k' : String) (h : k' ≠ k) :
    (dinsert d k v).lookup k' = d.lookup k' := by
  simp only [dinsert, lookup_append, lookup_filter_ne k' k h d]
  cases hd : d.lookup k' with
  | none =>
    have h2 : (k' == k) = false := beq_eq_false_iff_ne.mpr h
    simp [List.lookup, h2]
  | some w => rfl

/-- Claim C5: get_existing_item searches the content store with exactly
the query string tags:"t" AND type:"Feature Service", where t is the
supplied tag (when one is supplied) or the default tag (when none is
supplied), and it returns the first search result when the result list
is non-empty and none when the search comes back empty. -/
theorem claim_C5 (env : Env) (st : St) (tags : Option String)
    (h : tags = none ∨ ∃ s, tags = some s ∧ s ≠ "") :
    (get_existing_item env tags st).2.calls
      = st.calls ++ [Call.search
          ("tags:\"" ++ tags.getD DEFAULT_TAG ++ "\" AND type:\"Feature Service\"")] ∧
    (env.searchResult = [] → (get_existing_item env tags st).1 = none) ∧
    (∀ x l, env.searchResult = x :: l →
      (get_existing_item env tags st).1 = some x) := by
  rcases h with rfl | ⟨s, rfl, hs⟩
  · refine ⟨rfl, ?_, ?_⟩
    · intro he
      simp [get_existing_item, contentSearch, he]
    · intro x l he
      simp [get_existing_item, contentSearch, he]
  · have ht : pyTruthy (some s) = true := by simp [pyTruthy, hs]
    refine ⟨?_, ?_, ?_⟩
    · simp [get_existing_item, contentSearch, ht]
    · intro he
      simp [get_existing_item, contentSearch, he]
    · intro x l he
      simp [get_existing_item, contentSearch, he]

/-- Witness for claim C5 at a concrete non-empty tag. -/
theorem claim_C5_witness :
    ((some "abc" : Option String) = none ∨
      ∃ s, (some "abc" : Option String) = some s ∧ s ≠ "") ∧
    ((get_existing_item env0 (some "abc") st0).2.calls
      = st0.calls ++ [Call.search
          ("tags:\"" ++ (some "abc" : Option String).getD DEFAULT_TAG ++
            "\" AND type:\"Feature Service\"")] ∧
    (env0.searchResult = [] → (get_existing_item env0 (some "abc") st0).1 = none) ∧
    (∀ x l, env0.searchResult = x :: l →
      (get_existing_item env0 (some "abc") st0).1 = some x)) :=
  ⟨Or.inr ⟨"abc", rfl, by decide⟩,
    claim_C5 env0 st0 (some "abc") (Or.inr ⟨"abc", rfl, by decide⟩)⟩

/-- Claim C10: get_existing_item with the empty-string tag (and likewise
with no tag at all) builds the query from the system default tag, so an
empty-string tag is never searched for literally. -/
theorem claim_C10 (env : Env) (st : St) :
    (get_existing_item env (some "") st).2.calls
      = st.calls ++
        [Call.search "tags:\"geojson-utils-poc\" AND type:\"Feature Service\""] ∧
    (get_existing_item env none st).2.calls
      = st.calls ++
        [Call.search "tags:\"geojson-utils-poc\" AND type:\"Feature Service\""] :=
  ⟨rfl, rfl⟩

/-- Claim C6: the add-item call of add_geojson receives a properties map
whose type is fixed to GeoJson even when the caller supplied a type,
whose title and tags are the caller's values or the documented defaults,
and which passes every other caller-supplied option through verbatim. -/
theorem claim_C6 (env : Env) (st : St) (g : Geojson) (opts : Dict) :
    ∃ p, (add_geojson env g opts st).2.calls = st.calls ++ [Call.add p st.nextFile] ∧
      p.lookup "type" = some "GeoJson" ∧
      p.lookup "title" = some ((opts.lookup "title").getD DEFAULT_TITLE) ∧
      p.lookup "tags" = some ((opts.lookup "tags").getD DEFAULT_TAG) ∧
      (∀ k v, k ≠ "type" → k ≠ "title" → k ≠ "tags" →
        opts.lookup k = some v → p.lookup k = some v) := by
  obtain ⟨ao, apo, dlo, pbo, clo, ixo, sr⟩ := env
  refine ⟨dinsert (dinsert (dinsert (dpop (dpop opts "title" DEFAULT_TITLE).2
      "tags" DEFAULT_TAG).2 "type" "GeoJson") "title"
      (dpop opts "title" DEFAULT_TITLE).1) "tags"
      (dpop (dpop opts "title" DEFAULT_TITLE).2 "tags" DEFAULT_TAG).1,
    ?_, ?_, ?_, ?_, ?_⟩
  · cases ao <;>
      simp [add_geojson, tempfileCreate, tempfileClose, contentAdd]
  · rw [lookup_dinsert_ne _ _ _ _ (by decide), lookup_dinsert_ne _ _ _ _ (by decide),
      lookup_dinsert_self]
  · rw [lookup_dinsert_ne _ _ _ _ (by decide), lookup_dinsert_self]
    cases ho : opts.lookup "title" <;> simp [dpop, ho]
  · rw [lookup_dinsert_self]
    cases ho : opts.lookup "title" with
    | none =>
      cases ht : opts.lookup "tags" <;> simp [dpop, ho, ht]
    | some v =>
      have hf : (opts.filter (fun p => p.1 != "title")).lookup "tags"
          = opts.lookup "tags" := lookup_filter_ne _ _ (by decide) _
      cases ht : opts.lookup "tags" <;> simp [dpop, ho, hf, ht]
  · intro k v hk1 hk2 hk3 hkv
    rw [lookup_dinsert_ne _ _ _ _ hk3, lookup_dinsert_ne _ _ _ _ hk2,
      lookup_dinsert_ne _ _ _ _ hk1]
    cases ho : opts.lookup "title" with
    | none =>
      cases ht : opts.lookup "tags" <;>
        simp [dpop, ho, ht, lookup_filter_ne _ _ hk3, hkv]
    | some w =>
      have hf : (opts.filter (fun p => p.1 != "title")).lookup "tags"
          = opts.lookup "tags" := lookup_filter_ne _ _ (by decide) _
      cases ht : opts.lookup "tags" <;>
        simp [-List.filter_filter, dpop, ho, ht, hf, lookup_filter_ne _ _ hk3,
          lookup_filter_ne _ _ hk2, hkv]

/-- Witness for claim C6 at a concrete option map that tries to override
the type and carries a passthrough key. -/
theorem claim_C6_witness :
    ∃ p, (add_geojson env0 "x" [("type", "HACK"), ("extra", "v")] st0).2.calls
        = st0.calls ++ [Call.add p st0.nextFile] ∧
      p.lookup "type" = some "GeoJson" ∧
      p.lookup "title"
        = some ((([("type", "HACK"), ("extra", "v")] : Dict).lookup "title").getD DEFAULT_TITLE) ∧
      p.lookup "tags"
        = some ((([("type", "HACK"), ("extra", "v")] : Dict).lookup "tags").getD DEFAULT_TAG) ∧
      (∀ k v, k ≠ "type" → k ≠ "title" → k ≠ "tags" →
        ([("type", "HACK"), ("extra", "v")] : Dict).lookup k = some v →
          p.lookup k = some v) :=
  claim_C6 env0 st0 "x" [("type", "HACK"), ("extra", "v")]

/-- Claim C2: append_to_layer stages the payload with the fixed title
override Dataminr update, and invokes the layer append referencing the
staged item id, with upload format geojson, with the upsert flag set to
true exactly when a uid field was supplied (not None), passing that
field as the upsert matching field. -/
theorem claim_C2 (env : Env) (st : St) (layer : LayerRef) (g : Geojson)
    (uid : Option String) (hadd : env.addOk = true) :
    ∃ p, (append_to_layer env layer g uid st).2.calls
        = st.calls ++ [Call.add p st.nextFile,
            Call.append layer st.nextItem "geojson" uid.isSome uid,
            Call.delete st.nextItem] ∧
      p.lookup "title" = some "Dataminr update" := by
  refine ⟨dinsert (dinsert (dinsert (dpop (dpop [("title", "Dataminr update")]
      "title" DEFAULT_TITLE).2 "tags" DEFAULT_TAG).2 "type" "GeoJson") "title"
      (dpop [("title", "Dataminr update")] "title" DEFAULT_TITLE).1) "tags"
      (dpop (dpop [("title", "Dataminr update")] "title" DEFAULT_TITLE).2
        "tags" DEFAULT_TAG).1, ?_, by decide⟩
  cases hapo : env.appendOk <;> cases hdlo : env.deleteOk <;>
    simp [append_to_layer, add_geojson, tempfileCreate, tempfileClose,
      contentAdd, layerAppend, itemDelete, hadd, hapo, hdlo]

/-- Witness for claim C2 with a concrete uid field. -/
theorem claim_C2_witness :
    env0.addOk = true ∧
    ∃ p, (append_to_layer env0 (5, 0) "x" (some "uid") st0).2.calls
        = st0.calls ++ [Call.add p st0.nextFile,
            Call.append (5, 0) st0.nextItem "geojson" (some "uid").isSome (some "uid"),
            Call.delete st0.nextItem] ∧
      p.lookup "title" = some "Dataminr update" :=
  ⟨rfl, claim_C2 env0 st0 (5, 0) "x" (some "uid") rfl⟩

/-- Claim C4: in append_to_layer, when the append call fails but the
delete succeeds, the staged item is deleted (it is gone from the store
and the delete call follows the append call in the trace) and the append
failure is what propagates; when the append succeeds but the delete
fails, the delete failure propagates instead of being swallowed. -/
theorem claim_C4 (env : Env) (st : St) (layer : LayerRef) (g : Geojson)
    (uid : Option String) (hadd : env.addOk = true) :
    (env.appendOk = false → env.deleteOk = true →
      (append_to_layer env layer g uid st).1 = Except.error Err.appendFailed ∧
      st.nextItem ∉ (append_to_layer env layer g uid st).2.store ∧
      ∃ p, (append_to_layer env layer g uid st).2.calls
          = st.calls ++ [Call.add p st.nextFile,
              Call.append layer st.nextItem "geojson" uid.isSome uid,
              Call.delete st.nextItem]) ∧
    (env.appendOk = true → env.deleteOk = false →
      (append_to_layer env layer g uid st).1 = Except.error Err.deleteFailed) := by
  constructor
  · intro hapo hdlo
    refine ⟨?_, ?_, dinsert (dinsert (dinsert (dpop (dpop [("title", "Dataminr update")]
        "title" DEFAULT_TITLE).2 "tags" DEFAULT_TAG).2 "type" "GeoJson") "title"
        (dpop [("title", "Dataminr update")] "title" DEFAULT_TITLE).1) "tags"
        (dpop (dpop [("title", "Dataminr update")] "title" DEFAULT_TITLE).2
          "tags" DEFAULT_TAG).1, ?_⟩ <;>
      simp [append_to_layer, add_geojson, tempfileCreate, tempfileClose,
        contentAdd, layerAppend, itemDelete, hadd, hapo, hdlo]
  · intro hapo hdlo
    simp [append_to_layer, add_geojson, tempfileCreate, tempfileClose,
      contentAdd, layerAppend, itemDelete, hadd, hapo, hdlo]

/-- Witness for claim C4, exercising the append-failure branch and the
delete-failure branch in two concrete environments. -/
theorem claim_C4_witness :
    envAppendFail.addOk = true ∧ envDeleteFail.addOk = true ∧
    (append_to_layer envAppendFail (5, 0) "x" none st0).1
      = Except.error Err.appendFailed ∧
    (append_to_layer envDeleteFail (5, 0) "x" none st0).1
      = Except.error Err.deleteFailed :=
  ⟨rfl, rfl,
    ((claim_C4 envAppendFail st0 (5, 0) "x" none rfl).1 rfl rfl).1,
    (claim_C4 envDeleteFail st0 (5, 0) "x" none rfl).2 rfl rfl⟩

/-- Claim C1: after append_to_layer and after create_scratch_layer, the
staging resources created during the call are gone: assuming the store
performs deletions, the staged item is not in the final store, the temp
file is closed on every path, and whenever the staged item was created
at all the delete call on it is part of the trace before the call
returns, on the success path and on every failure path. -/
theorem claim_C1 (env : Env) (st : St) (layer : LayerRef) (g : Geojson)
    (uid : Option String) (opts : Dict)
    (hdel : env.deleteOk = true)
    (hwf : ∀ i ∈ st.store, i < st.nextItem) :
    (st.nextItem ∉ (append_to_layer env layer g uid st).2.store ∧
      ∀ c, (st.nextFile, c) ∉ (append_to_layer env layer g uid st).2.tempFiles) ∧
    (st.nextItem ∉ (create_scratch_layer env g uid opts st).2.store ∧
      ∀ c, (st.nextFile, c) ∉ (create_scratch_layer env g uid opts st).2.tempFiles) ∧
    (env.addOk = true →
      Call.delete st.nextItem ∈ (append_to_layer env layer g uid st).2.calls ∧
      Call.delete st.nextItem ∈ (create_scratch_layer env g uid opts st).2.calls) := by
  have hns : st.nextItem ∉ st.store := fun hmem => Nat.lt_irrefl _ (hwf _ hmem)
  have huid : pyTruthy uid = false ∨ pyTruthy uid = true := by
    cases pyTruthy uid <;> simp
  refine ⟨⟨?_, ?_⟩, ⟨?_, ?_⟩, ?_⟩
  · cases hao : env.addOk <;> cases hapo : env.appendOk <;>
      simp [append_to_layer, add_geojson, tempfileCreate, tempfileClose,
        contentAdd, layerAppend, itemDelete, hao, hapo, hdel, hns]
  · intro c
    cases hao : env.addOk <;> cases hapo : env.appendOk <;>
      simp [append_to_layer, add_geojson, tempfileCreate, tempfileClose,
        contentAdd, layerAppend, itemDelete, hao, hapo, hdel]
  · rcases huid with ht | ht <;>
      cases hao : env.addOk <;> cases hpbo : env.publishOk <;>
        cases hixo : env.indexOk <;>
          simp [create_scratch_layer, add_geojson, tempfileCreate, tempfileClose,
            contentAdd, itemPublish, itemDelete, addToDefinitionSdk,
            hao, hpbo, hixo, hdel, ht, hns]
  · intro c
    rcases huid with ht | ht <;>
      cases hao : env.addOk <;> cases hpbo : env.publishOk <;>
        cases hixo : env.indexOk <;>
          simp [create_scratch_layer, add_geojson, tempfileCreate, tempfileClose,
            contentAdd, itemPublish, itemDelete, addToDefinitionSdk,
            hao, hpbo, hixo, hdel, ht]
  · intro hao
    constructor
    · cases hapo : env.appendOk <;>
        simp [append_to_layer, add_geojson, tempfileCreate, tempfileClose,
          contentAdd, layerAppend, itemDelete, hao, hapo, hdel]
    · rcases huid with ht | ht <;>
        cases hpbo : env.publishOk <;> cases hixo : env.indexOk <;>
          simp [create_scratch_layer, add_geojson, tempfileCreate, tempfileClose,
            contentAdd, itemPublish, itemDelete, addToDefinitionSdk,
            hao, hpbo, hixo, hdel, ht]

/-- Witness for claim C1 at the empty initial state. -/
theorem claim_C1_witness :
    env0.deleteOk = true ∧ (∀ i ∈ st0.store, i < st0.nextItem) ∧
    st0.nextItem ∉ (append_to_layer env0 (5, 0) "x" none st0).2.store ∧
    st0.nextItem ∉ (create_scratch_layer env0 "x" (some "uid") [] st0).2.store :=
  ⟨rfl, by simp [st0],
    (claim_C1 env0 st0 (5, 0) "x" none [] rfl (by simp [st0])).1.1,
    (claim_C1 env0 st0 (5, 0) "x" (some "uid") [] rfl (by simp [st0])).2.1.1⟩

/-- Claim C3: create_scratch_layer with a non-empty uid field adds
exactly one index definition, the unique External UID index on that
field, to the first sub-layer of the published item; with no uid field
supplied it adds no index and makes no add-to-definition call at all. -/
theorem claim_C3 (env : Env) (st : St) (g : Geojson) (opts : Dict)
    (hadd : env.addOk = true) (hpub : env.publishOk = true)
    (hdel : env.deleteOk = true) (hidx : env.indexOk = true) :
    (∀ s : String, s ≠ "" →
      (create_scratch_layer env g (some s) opts st).2.indexes
        = st.indexes ++ [((st.nextItem + 1, 0),
            { name := "External UID", fields := s, isUnique := true,
              description := "External UID for upsert operations" })]) ∧
    ((create_scratch_layer env g none opts st).2.indexes = st.indexes ∧
      ∃ p, (create_scratch_layer env g none opts st).2.calls
          = st.calls ++ [Call.add p st.nextFile, Call.publish st.nextItem,
              Call.delete st.nextItem]) := by
  refine ⟨?_, ?_, dinsert (dinsert (dinsert (dpop (dpop opts "title"
      DEFAULT_TITLE).2 "tags" DEFAULT_TAG).2 "type" "GeoJson") "title"
      (dpop opts "title" DEFAULT_TITLE).1) "tags"
      (dpop (dpop opts "title" DEFAULT_TITLE).2 "tags" DEFAULT_TAG).1, ?_⟩
  · intro s hs
    have ht : pyTruthy (some s) = true := by simp [pyTruthy, hs]
    simp [create_scratch_layer, add_geojson, tempfileCreate, tempfileClose,
      contentAdd, itemPublish, itemDelete, addToDefinitionSdk,
      hadd, hpub, hdel, hidx, ht]
  · simp [create_scratch_layer, add_geojson, tempfileCreate, tempfileClose,
      contentAdd, itemPublish, itemDelete, addToDefinitionSdk,
      hadd, hpub, hdel, hidx, pyTruthy]
  · simp [create_scratch_layer, add_geojson, tempfileCreate, tempfileClose,
      contentAdd, itemPublish, itemDelete, addToDefinitionSdk,
      hadd, hpub, hdel, hidx, pyTruthy]

/-- Witness for claim C3, with a concrete non-empty uid field on one
side and no uid field on the other. -/
theorem claim_C3_witness :
    env0.addOk = true ∧
    (create_scratch_layer env0 "x" (some "uid") [] st0).2.indexes
      = st0.indexes ++ [((st0.nextItem + 1, 0),
          { name := "External UID", fields := "uid", isUnique := true,
            description := "External UID for upsert operations" })] ∧
    (create_scratch_layer env0 "x" none [] st0).2.indexes = st0.indexes :=
  ⟨rfl,
    (claim_C3 env0 st0 "x" [] rfl rfl rfl rfl).1 "uid" (by decide),
    (claim_C3 env0 st0 "x" [] rfl rfl rfl rfl).2.1⟩

/-- Claim C8: create_layer clones the template with the copy-data flag
false, appends the initial payload to the first sub-layer of the cloned
item with no upsert key (upsert off), and returns the cloned item
handle, not the sub-layer. -/
theorem claim_C8 (env : Env) (st : St) (g : Geojson) (tpl : Nat)
    (hc : env.cloneOk = true) (ha : env.addOk = true)
    (hap : env.appendOk = true) (hd : env.deleteOk = true) :
    (create_layer env g tpl st).1 = Except.ok st.nextItem ∧
    ∃ p, (create_layer env g tpl st).2.calls
        = st.calls ++ [Call.cloneItems [tpl] false, Call.add p st.nextFile,
            Call.append (st.nextItem, 0) (st.nextItem + 1) "geojson" false none,
            Call.delete (st.nextItem + 1)] := by
  refine ⟨?_, dinsert (dinsert (dinsert (dpop (dpop [("title", "Dataminr update")]
      "title" DEFAULT_TITLE).2 "tags" DEFAULT_TAG).2 "type" "GeoJson") "title"
      (dpop [("title", "Dataminr update")] "title" DEFAULT_TITLE).1) "tags"
      (dpop (dpop [("title", "Dataminr update")] "title" DEFAULT_TITLE).2
        "tags" DEFAULT_TAG).1, ?_⟩ <;>
    simp [create_layer, cloneItemsSdk, append_to_layer, add_geojson,
      tempfileCreate, tempfileClose, contentAdd, layerAppend, itemDelete,
      hc, ha, hap, hd]

/-- Witness for claim C8 at the empty initial state. -/
theorem claim_C8_witness :
    env0.cloneOk = true ∧
    (create_layer env0 "x" 42 st0).1 = Except.ok st0.nextItem :=
  ⟨rfl, (claim_C8 env0 st0 "x" 42 rfl rfl rfl rfl).1⟩

/-- Claim C9: the empty-string uid field is treated differently by the
two operations: append_to_layer with the empty string turns upsert on
and passes the empty string as the matching field, while
create_scratch_layer with the empty string treats the key as absent and
adds no index. -/
theorem claim_C9 (env : Env) (st : St) (layer : LayerRef) (g : Geojson)
    (opts : Dict) (ha : env.addOk = true) (hp : env.publishOk = true)
    (hd : env.deleteOk = true) :
    (∃ p, (append_to_layer env layer g (some "") st).2.calls
        = st.calls ++ [Call.add p st.nextFile,
            Call.append layer st.nextItem "geojson" true (some ""),
            Call.delete st.nextItem]) ∧
    (create_scratch_layer env g (some "") opts st).2.indexes = st.indexes := by
  constructor
  · refine ⟨dinsert (dinsert (dinsert (dpop (dpop [("title", "Dataminr update")]
        "title" DEFAULT_TITLE).2 "tags" DEFAULT_TAG).2 "type" "GeoJson") "title"
        (dpop [("title", "Dataminr update")] "title" DEFAULT_TITLE).1) "tags"
        (dpop (dpop [("title", "Dataminr update")] "title" DEFAULT_TITLE).2
          "tags" DEFAULT_TAG).1, ?_⟩
    cases hapo : env.appendOk <;>
      simp [append_to_layer, add_geojson, tempfileCreate, tempfileClose,
        contentAdd, layerAppend, itemDelete, ha, hapo, hd]
  · simp [create_scratch_layer, add_geojson, tempfileCreate, tempfileClose,
      contentAdd, itemPublish, itemDelete, addToDefinitionSdk,
      ha, hp, hd, pyTruthy]

/-- Witness for claim C9 at the empty initial state. -/
theorem claim_C9_witness :
    env0.addOk = true ∧
    (∃ p, (append_to_layer env0 (5, 0) "x" (some "") st0).2.calls
        = st0.calls ++ [Call.add p st0.nextFile,
            Call.append (5, 0) st0.nextItem "geojson" true (some ""),
            Call.delete st0.nextItem]) ∧
    (create_scratch_layer env0 "x" (some "") [] st0).2.indexes = st0.indexes :=
  ⟨rfl, (claim_C9 env0 st0 (5, 0) "x" [] rfl rfl rfl).1,
    (claim_C9 env0 st0 (5, 0) "x" [] rfl rfl rfl).2⟩

/-- The digit characters are decimal digits. -/
theorem digitChar_isDigit (k : Nat) (h : k < 10) : (digitChar k).isDigit = true := by
  have hall : ∀ n < 10, (digitChar n).isDigit = true := by decide
  exact hall k h

/-- Every rendering of an epoch instant through the strftime format of
the source has the exact MM/DD/YYYY HH:MM:SS shape. -/
theorem agsFormatted_strftimeAgs (t : Nat) :
    agsFormatted (strftimeAgs t) = true := by
  have hd : ∀ e : Nat, (digitChar (e % 10)).isDigit = true :=
    fun e => digitChar_isDigit _ (Nat.mod_lt _ (by decide))
  have h1 : "/".data = ['/'] := rfl
  have h2 : " ".data = [' '] := rfl
  have h3 : ":".data = [':'] := rfl
  simp [strftimeAgs, agsFormatted, String.data_append, pad2, pad4,
    h1, h2, h3, hd]

/-- Claim C7: for every valid epoch-milliseconds input, timestamp_to_ags
produces a string of the fixed shape MM/DD/YYYY HH:MM:SS, and — the
timestamp being converted to seconds, interpreted as a local-naive
datetime (the host local timezone modelled as a fixed UTC offset), then
formatted in UTC through date_to_ags — its result agrees with
date_to_ags applied to the UTC datetime of the same instant. -/
theorem claim_C7 (localOff : Int) (ms : Nat) (h : ms ≤ 253402300799999) :
    agsFormatted (timestamp_to_ags localOff ms) = true ∧
    timestamp_to_ags localOff ms
      = date_to_ags localOff (utcDatetimeOfSeconds (ms / 1000)) := by
  have hcast : ((ms : Int) / 1000).toNat = ms / 1000 := by omega
  have key : timestamp_to_ags localOff ms = strftimeAgs (ms / 1000) := by
    simp [timestamp_to_ags, date_to_ags, fromtimestamp, astimezoneUtc,
      strftimeAgsDate, hcast]
  have key2 : date_to_ags localOff (utcDatetimeOfSeconds (ms / 1000))
      = strftimeAgs (ms / 1000) := by
    simp [date_to_ags, utcDatetimeOfSeconds, astimezoneUtc, strftimeAgsDate,
      hcast]
  exact ⟨key ▸ agsFormatted_strftimeAgs _, key.trans key2.symm⟩

/-- Witness for claim C7 at a concrete timestamp and a concrete
non-UTC local offset. -/
theorem claim_C7_witness :
    (1600000000123 : Nat) ≤ 253402300799999 ∧
    (agsFormatted (timestamp_to_ags 3600 1600000000123) = true ∧
     timestamp_to_ags 3600 1600000000123
       = date_to_ags 3600 (utcDatetimeOfSeconds (1600000000123 / 1000))) :=
  ⟨by norm_num, claim_C7 3600 1600000000123 (by norm_num)⟩

end EtlUtils
